import Mathlib

/-!
Verification of the wa-gate-v2 gateway core against its specification.

The JavaScript sources are shallowly embedded: every definition below mirrors
one function (or one class's mutable state) of the repository.  Time is
modelled as `Nat` milliseconds, JavaScript `null` as `Option`, and the
singleton services' mutable instance fields as explicit state structures.
-/

namespace WaGate

/-! ## Phone-number formatting (`whatsapp.service.js`, `_formatPhoneNumber`)

```js
let cleaned = phone.replace(/\D/g, '');
if (!cleaned.startsWith('62')) { cleaned = '62' + cleaned.replace(/^0+/, ''); }
return `${cleaned}@c.us`;
```
-/

/-- `phone.replace(/\D/g, '')`: keep only the decimal digits. -/
def cleanDigits (phone : List Char) : List Char :=
  phone.filter Char.isDigit

/-- `cleaned.replace(/^0+/, '')`: strip leading zeros. -/
def stripLeadingZeros (s : List Char) : List Char :=
  s.dropWhile (fun c => c = '0')

/-- `_formatPhoneNumber` of `whatsapp.service.js`, on the character list of
the input string. -/
def formatPhoneNumber (phone : List Char) : List Char :=
  let cleaned := cleanDigits phone
  let withCountry :=
    if ['6', '2'].isPrefixOf cleaned then cleaned
    else ['6', '2'] ++ stripLeadingZeros cleaned
  withCountry ++ "@c.us".toList

/-! ## Message history (`message.service.js`, `_addToHistory` / `clearHistory`)

```js
this.messageHistory.unshift(data);
if (this.messageHistory.length > this.maxHistorySize) {
  this.messageHistory = this.messageHistory.slice(0, this.maxHistorySize);
}
```
with `maxHistorySize = 1000`.
-/

/-- `maxHistorySize` of `message.service.js`. -/
def maxHistorySize : Nat := 1000

/-- `_addToHistory(data)`: prepend the new entry, then truncate to the first
`maxHistorySize` entries when over the limit. -/
def addToHistory (data : String) (history : List String) : List String :=
  let h := data :: history
  if h.length > maxHistorySize then h.take maxHistorySize else h

/-- The message-service operations that touch `messageHistory`. -/
inductive HistoryOp where
  | add (data : String)
  | clear
deriving DecidableEq, Repr

/-- Effect of one operation on `messageHistory`. -/
def applyHistoryOp (h : List String) : HistoryOp → List String
  | .add d => addToHistory d h
  | .clear => []

/-- `messageHistory` after a sequence of operations, starting from the empty
history of the constructor. -/
def runHistoryOps (ops : List HistoryOp) : List String :=
  ops.foldl applyHistoryOp []

/-! ## Webhook registry and delivery pipeline (`webhook.service.js`)

The `webhooks` map of the singleton, in insertion order, is a list of
`Webhook` records; `eventQueue` is a list of `QueueItem`s.  A `QueueItem`
stores a reference to the registry's webhook object, modelled here by its id
together with an explicit registry.
-/

/-- One entry of the `webhooks` map of `webhook.service.js`. -/
structure Webhook where
  id : String
  url : String
  events : List String
  isActive : Bool
  successCount : Nat
  failureCount : Nat
deriving DecidableEq, Repr

/-- One entry of `eventQueue`: `{ webhook, payload, retries }`, the webhook
reference modelled by its id, the payload by the event kind it carries. -/
structure QueueItem where
  webhookId : String
  event : String
  retries : Nat
deriving DecidableEq, Repr

/-- The filter of `_triggerWebhook`:
`webhook.isActive && webhook.events.includes(eventType)`. -/
def subscribedTo (eventType : String) (w : Webhook) : Bool :=
  w.isActive && w.events.contains eventType

/-- The delivery tasks `_triggerWebhook(eventType, data)` pushes: one per
subscribed webhook, in registry order, each with `retries: 0`. -/
def triggerWebhookTasks (eventType : String) (webhooks : List Webhook) :
    List QueueItem :=
  (webhooks.filter (subscribedTo eventType)).map
    (fun w => ⟨w.id, eventType, 0⟩)

/-- `_triggerWebhook`'s effect on `eventQueue`: append the new tasks. -/
def triggerWebhook (eventType : String) (webhooks : List Webhook)
    (queue : List QueueItem) : List QueueItem :=
  queue ++ triggerWebhookTasks eventType webhooks

/-- `maxRetries` of `webhook.service.js`. -/
def maxRetries : Nat := 3

/-- The full mutable state the drain loop touches: `eventQueue` plus the
registry (`item.webhook` in the source is a reference into the registry,
modelled as an update keyed on the id). -/
structure PipelineState where
  queue : List QueueItem
  webhooks : List Webhook
deriving DecidableEq, Repr

/-- Mutation of the registry entry the queue item points at. -/
def updateWebhook (ws : List Webhook) (wid : String) (f : Webhook → Webhook) :
    List Webhook :=
  ws.map (fun w => if w.id == wid then f w else w)

/-- One iteration of the `while` loop of `_processQueue`, with the HTTP
outcome abstracted by `respond` (`true` = 2xx).  On success the webhook's
`successCount` is incremented and the item is done; on failure
`failureCount` is incremented and the item is re-enqueued with
`retries + 1` when `retries < maxRetries`, otherwise dropped.  The
`setTimeout` re-enqueue is modelled as an append at the back of the
queue. -/
def processStep (respond : QueueItem → Bool) (s : PipelineState) :
    PipelineState :=
  match s.queue with
  | [] => s
  | item :: rest =>
    if respond item then
      { queue := rest
        webhooks := updateWebhook s.webhooks item.webhookId
          (fun w => { w with successCount := w.successCount + 1 }) }
    else
      let ws := updateWebhook s.webhooks item.webhookId
        (fun w => { w with failureCount := w.failureCount + 1 })
      if item.retries < maxRetries then
        { queue := rest ++ [{ item with retries := item.retries + 1 }]
          webhooks := ws }
      else
        { queue := rest, webhooks := ws }

/-- A subscriber endpoint that always answers with a non-2xx status. -/
def alwaysFail : QueueItem → Bool := fun _ => false

/-- Total `failureCount` across the registry. -/
def totalFailures (ws : List Webhook) : Nat :=
  (ws.map Webhook.failureCount).sum

/-- A concrete registry entry subscribed to `message.received`, active. -/
def whA : Webhook :=
  ⟨"wh_a", "http://a.example/hook", ["message.received", "client.ready"],
    true, 0, 0⟩

/-- A concrete registry entry subscribed to `message.received`, inactive. -/
def whB : Webhook :=
  ⟨"wh_b", "http://b.example/hook", ["message.received"], false, 0, 0⟩

/-- A concrete registry entry not subscribed to `message.received`. -/
def whC : Webhook :=
  ⟨"wh_c", "http://c.example/hook", ["client.ready"], true, 0, 0⟩

/-- A concrete registry with a single active matching webhook. -/
def whD : Webhook :=
  ⟨"wh_d", "http://d.example/hook", ["message.received"], true, 0, 0⟩

/-- Pipeline state holding one fresh delivery task for `whD`. -/
def pipelineD : PipelineState :=
  ⟨[⟨"wh_d", "message.received", 0⟩], [whD]⟩

/-! ## Circuit breaker of the second `webhook.service.js` variant

```js
this.circuitBreaker = { failures: 0, threshold: 20, cooldown: 30000,
                        lastOpened: null, isOpen: false };
```
`isCircuitOpen()` auto-closes after the cooldown, `recordFailure()` opens at
the threshold, and `send()` consults the breaker before any HTTP request.
-/

/-- The `circuitBreaker` instance field. -/
structure CircuitBreaker where
  failures : Nat
  threshold : Nat
  cooldown : Nat
  lastOpened : Option Nat
  isOpen : Bool
deriving DecidableEq, Repr

/-- The breaker as built in the constructor. -/
def initialBreaker : CircuitBreaker := ⟨0, 20, 30000, none, false⟩

/-- `isCircuitOpen()`: when open and the cooldown has elapsed
(`now - lastOpened > cooldown`, JavaScript `now - null` being `now`),
close the breaker and reset `failures`; return the resulting flag. -/
def isCircuitOpen (now : Nat) (cb : CircuitBreaker) : Bool × CircuitBreaker :=
  if cb.isOpen then
    if now - cb.lastOpened.getD 0 > cb.cooldown then
      (false, { cb with isOpen := false, failures := 0 })
    else (true, cb)
  else (false, cb)

/-- `recordFailure()`: increment `failures` and open the breaker, recording
the open time, once the threshold is reached. -/
def recordFailure (now : Nat) (cb : CircuitBreaker) : CircuitBreaker :=
  let cb' := { cb with failures := cb.failures + 1 }
  if cb'.failures ≥ cb'.threshold then
    { cb' with isOpen := true, lastOpened := some now }
  else cb'

/-- Outcome of one `send()` call. -/
inductive SendResult where
  /-- Breaker open: the request is skipped, no HTTP call is made. -/
  | blocked
  /-- The (retried) HTTP request resolved 2xx. -/
  | delivered
  /-- The (retried) HTTP request ultimately failed. -/
  | failed
deriving DecidableEq, Repr

/-- `send(data)` restricted to its breaker bookkeeping, the retried HTTP
round-trip abstracted by `outcome` (`true` = the wrapped `retryRequest`
resolved 2xx): blocked while the breaker is open, `failures := 0` on
success, `recordFailure()` on failure. -/
def sendWebhook (now : Nat) (outcome : Bool) (cb : CircuitBreaker) :
    SendResult × CircuitBreaker :=
  let checked := isCircuitOpen now cb
  if checked.1 then (.blocked, checked.2)
  else if outcome then (.delivered, { checked.2 with failures := 0 })
  else (.failed, recordFailure now checked.2)

/-- A breaker one failure short of the threshold. -/
def cbAlmost : CircuitBreaker := ⟨19, 20, 30000, none, false⟩

/-- A breaker that opened at time 1000 ms. -/
def cbOpen : CircuitBreaker := ⟨20, 20, 30000, some 1000, true⟩

/-! ## Pairing artifact store (`qr.service.js`)

`handleQR(qr)` is a no-op while `qrLocked`; otherwise it locks, stores the
rendered artifact and schedules `unlockQR()` after `QR.LOCK_TIMEOUT`
(30000 ms, `config/constants`).  `unlockQR(force)` unlocks when forced, when
no lock time is recorded (JavaScript falsiness of `qrLockTime`), or when the
timeout has elapsed.
-/

/-- `QR.LOCK_TIMEOUT` of `config/constants`. -/
def lockTimeout : Nat := 30000

/-- The mutable fields of the `QRService` singleton.  The on-disk backup
file is outside this model. -/
structure QRState where
  qrBase64 : Option String
  qrLocked : Bool
  qrLockTime : Option Nat
deriving DecidableEq, Repr

/-- The `QRService` constructor state. -/
def initialQRState : QRState := ⟨none, false, none⟩

/-- `qrcode.toDataURL`, the external renderer, kept abstract up to its
data-URL shape. -/
def renderQR (raw : String) : String := "data:image/png;base64," ++ raw

/-- `lockQR()`: set the lock and record the lock time. -/
def lockQR (now : Nat) (s : QRState) : QRState :=
  { s with qrLocked := true, qrLockTime := some now }

/-- `handleQR(qr)`: no-op while locked, else lock and store the rendered
artifact.  (It also schedules `unlockQR()` at `now + lockTimeout`; the
timer's later firing is modelled as a separate `unlockQR false` event.) -/
def handleQR (now : Nat) (raw : String) (s : QRState) : QRState :=
  if s.qrLocked then s
  else { lockQR now s with qrBase64 := some (renderQR raw) }

/-- JavaScript falsiness of `this.qrLockTime` (`null` or `0`). -/
def lockTimeFalsy : Option Nat → Bool
  | none => true
  | some t => t == 0

/-- `unlockQR(force)`:
`if (force || !this.qrLockTime || Date.now() - this.qrLockTime > TIMEOUT)`. -/
def unlockQR (force : Bool) (now : Nat) (s : QRState) : QRState :=
  if force || lockTimeFalsy s.qrLockTime ||
      decide (now - s.qrLockTime.getD 0 > lockTimeout) then
    { s with qrLocked := false, qrLockTime := none }
  else s

/-! ## Connection lifecycle (`whatsapp.service.js`, whatsapp-web.js variant)

The singleton's mutable fields plus two observables the claims speak about:
`credsStored` is the LocalAuth on-disk credential store (written by the
auth strategy, deleted only by `client.logout()`), `pendingReconnects`
counts armed `setTimeout` reconnection timers (the source keeps no handle
to them), and `sessionsStarted` counts `client.initialize()` calls.
-/

/-- `this.maxRetries` of `whatsapp.service.js`. -/
def waMaxRetries : Nat := 3

/-- Mutable state of the `WhatsAppService` singleton. -/
structure WAState where
  isReady : Bool
  qrCode : Option String
  sessionData : Option String
  retryCount : Nat
  credsStored : Bool
  pendingReconnects : Nat
  sessionsStarted : Nat
deriving DecidableEq, Repr

/-- `initialize()`: build a fresh `Client` (replacing `this.client`),
register handlers, and start `client.initialize()`.  No instance field is
read or guarded: the only observable effect is one more session start. -/
def waInitialize (s : WAState) : WAState :=
  { s with sessionsStarted := s.sessionsStarted + 1 }

/-- The delay `_handleReconnection` computes for the post-increment attempt
count `n`: `Math.min(1000 * Math.pow(2, n), 30000)`. -/
def reconnectDelayJS (n : Nat) : Nat := min (1000 * 2 ^ n) 30000

/-- `_handleReconnection()`: give up at the retry budget, otherwise
increment `retryCount` and arm a timer that will call `initialize()`. -/
def handleReconnection (s : WAState) : WAState :=
  if s.retryCount ≥ waMaxRetries then s
  else { s with retryCount := s.retryCount + 1,
                pendingReconnects := s.pendingReconnects + 1 }

/-- The `client.on('disconnected')` handler: mark not ready, drop the QR,
emit the event, then `_handleReconnection()` — identically for every
`reason`; the stored credentials are not touched. -/
def onDisconnected (reason : String) (s : WAState) : WAState :=
  handleReconnection { s with isReady := false, qrCode := none }

/-- The `client.on('ready')` handler: `isReady = true; qrCode = null;
retryCount = 0`. -/
def onReady (s : WAState) : WAState :=
  { s with isReady := true, qrCode := none, retryCount := 0 }

/-- An armed reconnection timer firing: its callback calls
`initialize()` (the source retains no handle, so nothing can cancel it). -/
def reconnectTimerFire (s : WAState) : WAState :=
  if s.pendingReconnects > 0 then
    waInitialize { s with pendingReconnects := s.pendingReconnects - 1 }
  else s

/-- A connected session with stored credentials and no prior retries. -/
def waConnected : WAState := ⟨true, none, some "session", 0, true, 0, 1⟩

/-- A state in which one connection attempt is already in progress. -/
def waConnecting : WAState := ⟨false, none, none, 0, false, 0, 1⟩

/-! ## Reconnection policy of the Baileys variant (modelled from the spec)

`config/constants` (`src/unnamed/part_009`) declares
`RECONNECT: { DELAY: 3000, BACKOFF_MULTIPLIER: 1.5 }` and `config/env`
declares `WA_MAX_RECONNECT_ATTEMPTS` (default 5), but the service consuming
them is not under `src/` — only this configuration and its callers
(`qr.controller`, which reads `whatsappService.sock` and
`getStatus().reconnectAttempts`) are.
-/

/-- `RECONNECT.DELAY` of `config/constants`. -/
def reconnectBaseDelay : ℚ := 3000

/-- `RECONNECT.BACKOFF_MULTIPLIER` of `config/constants`. -/
def reconnectBackoffMultiplier : ℚ := 3 / 2

/-- Modelled from the spec: the Baileys-variant `whatsapp.service` that
consumes `RECONNECT` is missing from `src/`.  Spec §4.1: for a `transient`
disconnect, if `attempts` is below the configured maximum, increment it and
schedule one deferred `connect()` after
`min(base * multiplier^(attempts-1), cap)` ms (`attempts` post-increment);
otherwise transition to `failed` with no automatic attempt. -/
def scheduleReconnectSpec (attempts maxAttempts : Nat) (cap : ℚ) :
    Option (Nat × ℚ) :=
  if attempts < maxAttempts then
    let n := attempts + 1
    some (n, min (reconnectBaseDelay * reconnectBackoffMultiplier ^ (n - 1))
      cap)
  else none

/-- The backoff delay of the modelled policy for post-increment attempt
count `n`. -/
def reconnectDelaySpec (n : Nat) (cap : ℚ) : ℚ :=
  min (reconnectBaseDelay * reconnectBackoffMultiplier ^ (n - 1)) cap

/-! ## Lemmas and claim theorems -/

/-- Tasks produced by `_triggerWebhook` come exactly from the subscribed
webhooks. -/
lemma mem_triggerWebhookTasks {e : String} {ws : List Webhook}
    {t : QueueItem} :
    t ∈ triggerWebhookTasks e ws ↔
      ∃ w ∈ ws, subscribedTo e w = true ∧ t = ⟨w.id, e, 0⟩ := by
  unfold triggerWebhookTasks
  simp only [List.mem_map, List.mem_filter]
  constructor
  · rintro ⟨w, ⟨hw, hsub⟩, rfl⟩
    exact ⟨w, hw, hsub, rfl⟩
  · rintro ⟨w, hw, hsub, rfl⟩
    exact ⟨w, ⟨hw, hsub⟩, rfl⟩

/-- Per-subscriber task count of one `_triggerWebhook` call, assuming the
registry's ids are distinct (guaranteed by the `Map` keyed on id). -/
lemma countP_triggerWebhookTasks (e : String) (ws : List Webhook)
    (hids : (ws.map Webhook.id).Nodup) (w : Webhook) (hw : w ∈ ws) :
    (triggerWebhookTasks e ws).countP (fun t => t.webhookId == w.id) =
      if subscribedTo e w then 1 else 0 := by
  induction ws with
  | nil => cases hw
  | cons a rest ih =>
    have hno : a.id ∉ rest.map Webhook.id := (List.nodup_cons.mp hids).1
    have hrest : (rest.map Webhook.id).Nodup := (List.nodup_cons.mp hids).2
    have hsplit :
        triggerWebhookTasks e (a :: rest) =
          (if subscribedTo e a then [(⟨a.id, e, 0⟩ : QueueItem)] else []) ++
            triggerWebhookTasks e rest := by
      unfold triggerWebhookTasks
      rw [List.filter_cons]
      by_cases hsa : subscribedTo e a
      · simp [hsa]
      · simp [hsa]
    rcases List.mem_cons.mp hw with rfl | hwr
    · have hzero :
          (triggerWebhookTasks e rest).countP
            (fun t => t.webhookId == w.id) = 0 := by
        rw [List.countP_eq_zero]
        intro t ht
        rcases mem_triggerWebhookTasks.mp ht with ⟨w', hw', _, rfl⟩
        simp only [beq_iff_eq]
        intro hid
        exact hno (hid ▸ List.mem_map_of_mem Webhook.id hw')
      rw [hsplit, List.countP_append, hzero]
      by_cases hsa : subscribedTo e w
      · simp [hsa, List.countP_cons]
      · simp [hsa]
    · have hane : a.id ≠ w.id := by
        intro hid
        exact hno (hid ▸ List.mem_map_of_mem Webhook.id hwr)
      rw [hsplit, List.countP_append, ih hrest hwr]
      by_cases hsa : subscribedTo e a
      · simp [hsa, List.countP_cons, hane]
      · simp [hsa]

/-- C1: publishing an event appends to the queue exactly one delivery task
per registered webhook that is active and subscribed to the event's kind:
no task for an inactive or non-matching webhook, none matched twice, and no
task for an unregistered webhook. -/
theorem triggerWebhook_fanout (eventType : String) (webhooks : List Webhook)
    (queue : List QueueItem)
    (hids : (webhooks.map Webhook.id).Nodup) :
    triggerWebhook eventType webhooks queue =
      queue ++ triggerWebhookTasks eventType webhooks ∧
    (∀ w ∈ webhooks,
      (triggerWebhookTasks eventType webhooks).countP
          (fun t => t.webhookId == w.id) =
        if w.isActive ∧ eventType ∈ w.events then 1 else 0) ∧
    (∀ t ∈ triggerWebhookTasks eventType webhooks,
      ∃ w ∈ webhooks, t.webhookId = w.id ∧ w.isActive = true ∧
        eventType ∈ w.events) := by
  refine ⟨rfl, fun w hw => ?_, fun t ht => ?_⟩
  · rw [countP_triggerWebhookTasks eventType webhooks hids w hw]
    unfold subscribedTo
    by_cases ha : w.isActive
    · by_cases hev : eventType ∈ w.events
      · simp [ha, hev, List.elem_iff.mpr hev]
      · simp [ha, hev, fun h => hev (List.elem_iff.mp h)]
    · simp [ha]
  · rcases mem_triggerWebhookTasks.mp ht with ⟨w, hw, hsub, rfl⟩
    unfold subscribedTo at hsub
    rw [Bool.and_eq_true] at hsub
    rcases hsub with ⟨ha, hev⟩
    exact ⟨w, hw, rfl, ha, List.elem_iff.mp hev⟩

/-- `_addToHistory` always equals a `take` of the prepended list. -/
lemma addToHistory_eq_take (d : String) (h : List String) :
    addToHistory d h = (d :: h).take maxHistorySize := by
  unfold addToHistory
  by_cases hlen : (d :: h).length > maxHistorySize
  · simp [hlen]
  · rw [if_neg hlen]
    exact (List.take_of_length_le (not_lt.mp hlen)).symm

/-- The history bound is preserved by any run of operations. -/
lemma runHistoryOps_aux (ops : List HistoryOp) (h : List String)
    (hh : h.length ≤ maxHistorySize) :
    (ops.foldl applyHistoryOp h).length ≤ maxHistorySize := by
  induction ops generalizing h with
  | nil => simpa using hh
  | cons op rest ih =>
    cases op with
    | add d =>
      refine ih _ ?_
      rw [show applyHistoryOp h (.add d) = addToHistory d h from rfl,
        addToHistory_eq_take]
      simp [List.length_take]
    | clear => exact ih _ (by simp [applyHistoryOp])

/-- C9: the recipient normalization used by `sendMessage`, `sendMedia` and
`isRegistered` returns `<digits>@c.us` where the digit part keeps exactly the
digits of the input, always starts with `62`, and when the cleaned digits do
not already start with `62`, leading zeros are stripped and `62` is
prepended (so a foreign-prefixed or empty number becomes an
Indonesian-style JID). -/
theorem formatPhoneNumber_spec (phone : List Char) :
    ∃ body : List Char,
      formatPhoneNumber phone = body ++ "@c.us".toList ∧
      ['6', '2'] <+: body ∧
      (∀ c ∈ body, c.isDigit) ∧
      body = (if ['6', '2'].isPrefixOf (cleanDigits phone) then cleanDigits phone
              else ['6', '2'] ++ stripLeadingZeros (cleanDigits phone)) := by
  refine ⟨if ['6', '2'].isPrefixOf (cleanDigits phone) then cleanDigits phone
          else ['6', '2'] ++ stripLeadingZeros (cleanDigits phone),
    rfl, ?_, ?_, rfl⟩
  · by_cases hp : ['6', '2'].isPrefixOf (cleanDigits phone)
    · rw [if_pos hp]
      exact List.isPrefixOf_iff_prefix.mp hp
    · rw [if_neg hp]
      exact ⟨stripLeadingZeros (cleanDigits phone), rfl⟩
  · intro c hc
    by_cases hp : ['6', '2'].isPrefixOf (cleanDigits phone)
    · rw [if_pos hp] at hc
      exact (List.mem_filter.mp hc).2
    · rw [if_neg hp] at hc
      rcases List.mem_append.mp hc with h62 | hrest
      · rcases h62 with _ | ⟨_, _ | ⟨_, h⟩⟩ <;> first | decide | cases h
      · have hmem : c ∈ cleanDigits phone :=
          ((List.dropWhile_sublist _).mem hrest)
        exact (List.mem_filter.mp hmem).2

/-- C10: after any sequence of message-service operations the in-memory
message history holds at most `maxHistorySize` (1000) entries, the most
recently added entry is first, and adding to a full history keeps exactly the
first 1000 entries of the prepended list (evicting only the oldest ones). -/
theorem messageHistory_invariant :
    (∀ ops : List HistoryOp, (runHistoryOps ops).length ≤ maxHistorySize) ∧
    (∀ (d : String) (h : List String), (addToHistory d h).head? = some d) ∧
    (∀ (d : String) (h : List String),
      addToHistory d h = (d :: h).take maxHistorySize) := by
  refine ⟨fun ops => runHistoryOps_aux ops [] (by simp), fun d h => ?_,
    addToHistory_eq_take⟩
  rw [addToHistory_eq_take, show maxHistorySize = 999 + 1 from rfl,
    List.take_succ_cons]
  rfl

/-- Witness for `triggerWebhook_fanout` at a concrete registry: one active
matching, one inactive matching, one active non-matching webhook. -/
theorem triggerWebhook_fanout_witness :
    ([whA, whB, whC].map Webhook.id).Nodup ∧
    (triggerWebhook "message.received" [whA, whB, whC] [] =
        [] ++ triggerWebhookTasks "message.received" [whA, whB, whC] ∧
      (∀ w ∈ [whA, whB, whC],
        (triggerWebhookTasks "message.received" [whA, whB, whC]).countP
            (fun t => t.webhookId == w.id) =
          if w.isActive ∧ "message.received" ∈ w.events then 1 else 0) ∧
      (∀ t ∈ triggerWebhookTasks "message.received" [whA, whB, whC],
        ∃ w ∈ [whA, whB, whC], t.webhookId = w.id ∧ w.isActive = true ∧
          "message.received" ∈ w.events)) :=
  ⟨by decide, triggerWebhook_fanout "message.received" [whA, whB, whC] []
    (by decide)⟩

/-- Counterexample to C2 as stated: three consecutive non-2xx responses to
the single fresh task of `pipelineD` leave `failureCount = 3` (not 1) and
the task still re-enqueued with `retries = 3` (not dropped). -/
theorem processQueue_three_failures_cex :
    ((processStep alwaysFail)^[3] pipelineD).webhooks.map
        Webhook.failureCount = [3] ∧
    ((processStep alwaysFail)^[3] pipelineD).queue =
      [⟨"wh_d", "message.received", 3⟩] ∧
    ¬ (((processStep alwaysFail)^[3] pipelineD).webhooks.map
          Webhook.failureCount = [1] ∧
        ((processStep alwaysFail)^[3] pipelineD).queue = []) := by
  decide

/-- C2 (amended): every failed attempt increments the webhook's
`failureCount` by one (not once per task); a failing item is re-enqueued
with `retries + 1` while `retries < maxRetries` and only dropped once
`retries` has reached `maxRetries`; hence a fresh task whose every attempt
fails is attempted `maxRetries + 1 = 4` times in total, after which the
queue is empty and `failureCount` has grown by 4. -/
theorem processQueue_retry_amended (respond : QueueItem → Bool)
    (item : QueueItem) (rest : List QueueItem) (ws : List Webhook)
    (hfail : respond item = false) :
    (processStep respond ⟨item :: rest, ws⟩).webhooks =
      updateWebhook ws item.webhookId
        (fun w => { w with failureCount := w.failureCount + 1 }) ∧
    (processStep respond ⟨item :: rest, ws⟩).queue =
      (if item.retries < maxRetries
       then rest ++ [{ item with retries := item.retries + 1 }]
       else rest) ∧
    (∀ (w : Webhook) (e : String),
      ((processStep alwaysFail)^[maxRetries + 1]
          ⟨[⟨w.id, e, 0⟩], [w]⟩).queue = [] ∧
      ((processStep alwaysFail)^[maxRetries + 1]
          ⟨[⟨w.id, e, 0⟩], [w]⟩).webhooks =
        [{ w with failureCount := w.failureCount + (maxRetries + 1) }]) := by
  refine ⟨?_, ?_, ?_⟩
  · unfold processStep
    simp only [hfail, Bool.false_eq_true, if_false]
    by_cases hr : item.retries < maxRetries <;> simp [hr]
  · unfold processStep
    simp only [hfail, Bool.false_eq_true, if_false]
    by_cases hr : item.retries < maxRetries <;> simp [hr]
  · intro w e
    have hid : (w.id == w.id) = true := beq_self_eq_true w.id
    constructor <;>
      simp [Function.iterate_succ, Function.iterate_zero, Function.comp, processStep, alwaysFail, updateWebhook,
        maxRetries, hid]

/-- Witness for `processQueue_retry_amended` at the concrete single-task
pipeline of `pipelineD`. -/
theorem processQueue_retry_amended_witness :
    alwaysFail ⟨"wh_d", "message.received", 0⟩ = false ∧
    ((processStep alwaysFail
        ⟨[⟨"wh_d", "message.received", 0⟩], [whD]⟩).webhooks =
      updateWebhook [whD] "wh_d"
        (fun w => { w with failureCount := w.failureCount + 1 }) ∧
    (processStep alwaysFail
        ⟨[⟨"wh_d", "message.received", 0⟩], [whD]⟩).queue =
      (if (0 : Nat) < maxRetries
       then ([] : List QueueItem) ++ [⟨"wh_d", "message.received", 1⟩]
       else []) ∧
    (∀ (w : Webhook) (e : String),
      ((processStep alwaysFail)^[maxRetries + 1]
          ⟨[⟨w.id, e, 0⟩], [w]⟩).queue = [] ∧
      ((processStep alwaysFail)^[maxRetries + 1]
          ⟨[⟨w.id, e, 0⟩], [w]⟩).webhooks =
        [{ w with failureCount := w.failureCount + (maxRetries + 1) }])) :=
  ⟨rfl, processQueue_retry_amended alwaysFail
    ⟨"wh_d", "message.received", 0⟩ [] [whD] rfl⟩

/-- C5: the breaker opens exactly when `failures` reaches `threshold`; while
open and within the cooldown window `send()` performs no HTTP call and
changes nothing; once the cooldown has elapsed the check closes the breaker
and resets `failures`, letting the request proceed; and a successful
delivery resets `failures` to 0. -/
theorem circuitBreaker_spec :
    (∀ (now : Nat) (cb : CircuitBreaker), cb.isOpen = false →
      ((recordFailure now cb).isOpen = true ↔
        cb.failures + 1 ≥ cb.threshold)) ∧
    (∀ (now : Nat) (outcome : Bool) (cb : CircuitBreaker) (t : Nat),
      cb.isOpen = true → cb.lastOpened = some t → now - t ≤ cb.cooldown →
      sendWebhook now outcome cb = (.blocked, cb)) ∧
    (∀ (now : Nat) (cb : CircuitBreaker) (t : Nat),
      cb.isOpen = true → cb.lastOpened = some t → now - t > cb.cooldown →
      (isCircuitOpen now cb).2.isOpen = false ∧
      (isCircuitOpen now cb).2.failures = 0 ∧
      ∀ outcome, (sendWebhook now outcome cb).1 ≠ .blocked) ∧
    (∀ (now : Nat) (cb : CircuitBreaker),
      (sendWebhook now true cb).1 = .delivered →
      (sendWebhook now true cb).2.failures = 0) := by
  refine ⟨?_, ?_, ?_, ?_⟩
  · intro now cb hopen
    unfold recordFailure
    by_cases h : cb.failures + 1 ≥ cb.threshold
    · simp [h]
    · simp [h, hopen]
  · intro now outcome cb t hopen hlast hle
    unfold sendWebhook isCircuitOpen
    simp [hopen, hlast, Nat.not_lt.mpr hle]
  · intro now cb t hopen hlast hgt
    unfold sendWebhook isCircuitOpen
    simp only [hopen, hlast, if_true, Option.getD_some]
    rw [if_pos hgt]
    refine ⟨rfl, rfl, fun outcome => ?_⟩
    by_cases ho : outcome <;> simp [ho]
  · intro now cb
    unfold sendWebhook
    rcases h : (isCircuitOpen now cb).1 with _ | _
    · simp [h]
    · simp [h]

/-- Witness for `circuitBreaker_spec`: a breaker one failure short of the
threshold, and a breaker opened at 1000 ms probed inside (19 s later) and
after (39 s later) its 30 s cooldown. -/
theorem circuitBreaker_spec_witness :
    (cbAlmost.isOpen = false ∧
      ((recordFailure 500 cbAlmost).isOpen = true ↔
        cbAlmost.failures + 1 ≥ cbAlmost.threshold)) ∧
    (cbOpen.isOpen = true ∧ cbOpen.lastOpened = some 1000 ∧
      20000 - 1000 ≤ cbOpen.cooldown ∧
      sendWebhook 20000 true cbOpen = (.blocked, cbOpen)) ∧
    (cbOpen.isOpen = true ∧ 40000 - 1000 > cbOpen.cooldown ∧
      (isCircuitOpen 40000 cbOpen).2.isOpen = false ∧
      (isCircuitOpen 40000 cbOpen).2.failures = 0 ∧
      ∀ outcome, (sendWebhook 40000 outcome cbOpen).1 ≠ .blocked) ∧
    ((sendWebhook 0 true initialBreaker).1 = .delivered →
      (sendWebhook 0 true initialBreaker).2.failures = 0) := by
  have h3 := circuitBreaker_spec.2.2.1 40000 cbOpen 1000 rfl rfl (by decide)
  exact ⟨⟨rfl, circuitBreaker_spec.1 500 cbAlmost rfl⟩,
    ⟨rfl, rfl, by decide,
      circuitBreaker_spec.2.1 20000 true cbOpen 1000 rfl rfl (by decide)⟩,
    ⟨rfl, by decide, h3.1, h3.2.1, h3.2.2⟩,
    circuitBreaker_spec.2.2.2 0 initialBreaker⟩

/-- C8: `handleQR` is a no-op while the lock is held; and once the
auto-unlock timer scheduled by `handleQR` fires after the TTL has elapsed
(strictly more than `lockTimeout` ms after the lock time) the lock is
released without any explicit unlock call, so a subsequent `handleQR` with
a new token stores the new artifact. -/
theorem qrLock_spec :
    (∀ (now : Nat) (raw : String) (s : QRState), s.qrLocked = true →
      handleQR now raw s = s) ∧
    (∀ (s : QRState) (l tFire tNew : Nat) (raw' : String),
      s.qrLocked = true → s.qrLockTime = some l →
      l + lockTimeout < tFire →
      (unlockQR false tFire s).qrLocked = false ∧
      handleQR tNew raw' (unlockQR false tFire s) =
        ⟨some (renderQR raw'), true, some tNew⟩) := by
  constructor
  · intro now raw s hlock
    unfold handleQR
    rw [if_pos hlock]
  · intro s l tFire tNew raw' hlock hlt htime
    have hgt : tFire - l > lockTimeout := by omega
    have hunlock : unlockQR false tFire s =
        { s with qrLocked := false, qrLockTime := none } := by
      unfold unlockQR
      rw [hlt]
      simp [Option.getD_some, hgt]
    refine ⟨by rw [hunlock], ?_⟩
    rw [hunlock]
    unfold handleQR lockQR
    simp

/-- Witness for `qrLock_spec`: a lock taken at 100 ms whose timer fires at
30101 ms, followed by a fresh token at 30200 ms. -/
theorem qrLock_spec_witness :
    ((handleQR 100 "T1" initialQRState).qrLocked = true ∧
      handleQR 150 "T1b" (handleQR 100 "T1" initialQRState) =
        handleQR 100 "T1" initialQRState) ∧
    ((handleQR 100 "T1" initialQRState).qrLockTime = some 100 ∧
      100 + lockTimeout < 30101 ∧
      (unlockQR false 30101 (handleQR 100 "T1" initialQRState)).qrLocked =
        false ∧
      handleQR 30200 "T2"
          (unlockQR false 30101 (handleQR 100 "T1" initialQRState)) =
        ⟨some (renderQR "T2"), true, some 30200⟩) := by
  have h2 := qrLock_spec.2 (handleQR 100 "T1" initialQRState) 100 30101
    30200 "T2" (by decide) (by decide) (by decide)
  exact ⟨⟨by decide,
      qrLock_spec.1 150 "T1b" (handleQR 100 "T1" initialQRState)
        (by decide)⟩,
    ⟨by decide, by decide, h2.1, h2.2⟩⟩

/-- C3 (modelled from the spec, the Baileys-variant service being absent
from `src/`): while below the configured maximum, a transient disconnect
schedules exactly one deferred reconnect with delay
`min(base * multiplier^(n-1), cap)` for the post-increment attempt count
`n`; the delays are monotonically non-decreasing in `n`; at the budget no
reconnect is scheduled; and from `attempts = 0` with base 3000 ms and
multiplier 1.5 the first delay is 3000 ms and `attempts` becomes 1. -/
theorem reconnectPolicy_spec :
    (∀ (attempts maxAttempts : Nat) (cap : ℚ), attempts < maxAttempts →
      scheduleReconnectSpec attempts maxAttempts cap =
        some (attempts + 1, reconnectDelaySpec (attempts + 1) cap)) ∧
    (∀ (attempts maxAttempts : Nat) (cap : ℚ), maxAttempts ≤ attempts →
      scheduleReconnectSpec attempts maxAttempts cap = none) ∧
    (∀ (n m : Nat) (cap : ℚ), n ≤ m →
      reconnectDelaySpec n cap ≤ reconnectDelaySpec m cap) ∧
    (∀ (maxAttempts : Nat) (cap : ℚ), 0 < maxAttempts → 3000 ≤ cap →
      scheduleReconnectSpec 0 maxAttempts cap = some (1, 3000)) := by
  refine ⟨?_, ?_, ?_, ?_⟩
  · intro attempts maxAttempts cap h
    unfold scheduleReconnectSpec reconnectDelaySpec
    rw [if_pos h]
  · intro attempts maxAttempts cap h
    unfold scheduleReconnectSpec
    rw [if_neg (Nat.not_lt.mpr h)]
  · intro n m cap hnm
    unfold reconnectDelaySpec
    refine min_le_min ?_ le_rfl
    refine mul_le_mul_of_nonneg_left ?_ (by norm_num [reconnectBaseDelay])
    exact pow_le_pow_right₀ (by norm_num [reconnectBackoffMultiplier])
      (by omega)
  · intro maxAttempts cap hpos hcap
    unfold scheduleReconnectSpec
    rw [if_pos hpos]
    show some (1, reconnectBaseDelay * reconnectBackoffMultiplier ^ (1 - 1) ⊓
      cap) = some (1, 3000)
    rw [show reconnectBaseDelay * reconnectBackoffMultiplier ^ (1 - 1) = 3000
      by norm_num [reconnectBaseDelay, reconnectBackoffMultiplier],
      min_eq_left hcap]

/-- Witness for `reconnectPolicy_spec` at the repository configuration:
maximum 5 attempts (`WA_MAX_RECONNECT_ATTEMPTS` default) and a 30 s cap. -/
theorem reconnectPolicy_spec_witness :
    (0 < 5 ∧ scheduleReconnectSpec 0 5 30000 =
      some (1, reconnectDelaySpec 1 30000)) ∧
    ((5 : Nat) ≤ 5 ∧ scheduleReconnectSpec 5 5 30000 = none) ∧
    ((2 : Nat) ≤ 4 ∧
      reconnectDelaySpec 2 30000 ≤ reconnectDelaySpec 4 30000) ∧
    ((3000 : ℚ) ≤ 30000 ∧ scheduleReconnectSpec 0 5 30000 =
      some (1, 3000)) :=
  ⟨⟨by norm_num, reconnectPolicy_spec.1 0 5 30000 (by norm_num)⟩,
    ⟨le_rfl, reconnectPolicy_spec.2.1 5 5 30000 le_rfl⟩,
    ⟨by norm_num, reconnectPolicy_spec.2.2.1 2 4 30000 (by norm_num)⟩,
    ⟨by norm_num,
      reconnectPolicy_spec.2.2.2 5 30000 (by norm_num) (by norm_num)⟩⟩

/-- Counterexample to C4 as stated: a disconnect with a logged-out reason
from a connected state with stored credentials schedules a reconnection
(`pendingReconnects = 1`, `retryCount = 1`) while the credentials are still
stored — the handler never classifies the cause nor clears credentials. -/
theorem loggedOut_disconnect_cex :
    (onDisconnected "LOGOUT" waConnected).credsStored = true ∧
    (onDisconnected "LOGOUT" waConnected).sessionData = some "session" ∧
    (onDisconnected "LOGOUT" waConnected).pendingReconnects = 1 ∧
    (onDisconnected "LOGOUT" waConnected).retryCount = 1 := by
  decide

/-- C4 (amended): the `disconnected` handler ignores the cause — every
reason, logged-out included, is treated identically: it clears only the QR
artifact, leaves stored credentials and session data untouched, and
schedules a reconnection whenever `retryCount < maxRetries`. -/
theorem onDisconnected_amended (reason : String) (s : WAState) :
    (onDisconnected reason s).credsStored = s.credsStored ∧
    (onDisconnected reason s).sessionData = s.sessionData ∧
    (onDisconnected reason s).qrCode = none ∧
    (onDisconnected reason s).isReady = false ∧
    (onDisconnected reason s).pendingReconnects =
      (if s.retryCount < waMaxRetries then s.pendingReconnects + 1
       else s.pendingReconnects) ∧
    (∀ reason' : String, onDisconnected reason s = onDisconnected reason' s)
    := by
  unfold onDisconnected handleReconnection
  by_cases h : s.retryCount ≥ waMaxRetries
  · simp [h, Nat.not_lt.mpr h]
  · simp [h, Nat.not_le.mp h]

/-- Counterexample to C6 as stated: calling `initialize()` while an attempt
is in progress is not a no-op — it starts a second transport session. -/
theorem initialize_not_idempotent_cex :
    waInitialize waConnecting ≠ waConnecting ∧
    (waInitialize waConnecting).sessionsStarted = 2 := by
  decide

/-- C6 (amended): `initialize()` has no in-progress guard: every call —
also one made while a previous attempt is still in progress — constructs a
fresh client and starts one more transport session, so a repeated call is
never a no-op. -/
theorem initialize_amended (s : WAState) :
    (waInitialize s).sessionsStarted = s.sessionsStarted + 1 ∧
    waInitialize s ≠ s ∧
    (waInitialize (waInitialize s)).sessionsStarted =
      s.sessionsStarted + 2 := by
  refine ⟨rfl, ?_, rfl⟩
  intro h
  have h' := congrArg WAState.sessionsStarted h
  simp only [waInitialize] at h'
  omega

/-- Witness for `initialize_amended` at the in-progress state. -/
theorem initialize_amended_witness :
    (waInitialize waConnecting).sessionsStarted =
      waConnecting.sessionsStarted + 1 ∧
    waInitialize waConnecting ≠ waConnecting ∧
    (waInitialize (waInitialize waConnecting)).sessionsStarted =
      waConnecting.sessionsStarted + 2 :=
  initialize_amended waConnecting

/-- A disconnected state with one armed reconnection timer and an
outstanding QR artifact. -/
def waPendingTimer : WAState := ⟨false, some "artifact", none, 1, true, 1, 1⟩

/-- Counterexample to C7 as stated: the `ready` handler does not cancel the
pending reconnection timer — after entering the connected state the timer
is still armed, and its firing starts another session while connected. -/
theorem onReady_pending_timer_cex :
    (onReady waPendingTimer).isReady = true ∧
    (onReady waPendingTimer).pendingReconnects = 1 ∧
    (reconnectTimerFire (onReady waPendingTimer)).sessionsStarted = 2 ∧
    (reconnectTimerFire (onReady waPendingTimer)).isReady = true := by
  decide

/-- C7 (amended): every `ready` transition resets `retryCount` to 0 and
clears the QR artifact (so immediately after entering the connected state
no pairing artifact is outstanding), but it cancels no pending
reconnection timer: `pendingReconnects` is unchanged and an armed timer
still fires `initialize()` while connected. -/
theorem onReady_amended (s : WAState) :
    (onReady s).isReady = true ∧
    (onReady s).retryCount = 0 ∧
    (onReady s).qrCode = none ∧
    (onReady s).pendingReconnects = s.pendingReconnects ∧
    (0 < s.pendingReconnects →
      (reconnectTimerFire (onReady s)).sessionsStarted =
        s.sessionsStarted + 1 ∧
      (reconnectTimerFire (onReady s)).isReady = true) := by
  refine ⟨rfl, rfl, rfl, rfl, fun hp => ?_⟩
  unfold reconnectTimerFire onReady waInitialize
  simp only
  rw [if_pos (by simpa using hp)]
  exact ⟨rfl, rfl⟩

/-- Witness for `onReady_amended` at the armed-timer state. -/
theorem onReady_amended_witness :
    0 < waPendingTimer.pendingReconnects ∧
    (onReady waPendingTimer).retryCount = 0 ∧
    (onReady waPendingTimer).qrCode = none ∧
    (reconnectTimerFire (onReady waPendingTimer)).sessionsStarted =
      waPendingTimer.sessionsStarted + 1 :=
  ⟨by decide, (onReady_amended waPendingTimer).2.1,
    (onReady_amended waPendingTimer).2.2.1,
    ((onReady_amended waPendingTimer).2.2.2.2 (by decide)).1⟩

end WaGate
